import Mathlib

/-!
Formal model of `bot.py` from the Render-telegram-bot repository.

The bot is a Telegram command-dispatch layer over the Render REST API.  This
file gives a shallow embedding of the pieces of `bot.py` that the verified
properties talk about: the configuration globals, the admin gate
(`check_admin`), the API gateway (`make_render_request`), the display
formatter (`format_service_info`), the message-truncation logic, and a
selection of command handlers (`start`, `list_services`, `service_info`,
`service_logs`, `scale_service`).

Modelling conventions:
* Python dicts with a known shape become structures whose fields are
  `Option`-valued (a `none` field models an absent key, so `d.get(k, dflt)`
  becomes `field.getD dflt`).
* The per-endpoint parsed JSON body is given the type the handler assumes
  for it; request payloads are string-to-int association lists (`Payload`).
* Network effects are made explicit: each modelled handler returns the list
  of Telegram replies it sends together with the list of upstream HTTP
  requests it issues.  An unhandled Python exception inside a handler (which
  the framework routes to `error_handler`) is modelled by the
  `HandlerOutcome.crash` constructor.
* Machine-level concerns (threading, the health-check HTTP server, inline
  keyboard markup, message pinning) are pure UI/process plumbing and carry
  no business data; they are not modelled.
-/

/-- A request payload dict.  Every `data` dict the program passes to
`make_render_request` and actually sends is integer-valued
(`\x7b'limit': 50\x7d` and friends), so payloads are modelled as string-to-int
association lists. -/
abbrev Payload := List (String × Int)

/-- One element of a `serviceDetails.envVars` array. -/
structure EnvVar where
  key : String
  value : String
deriving DecidableEq

/-- The `serviceDetails` sub-dictionary of a service, as read by
`format_service_info` (bot.py lines 104-108). -/
structure ServiceDetails where
  envVars : Option (List EnvVar)
  plan : Option String
  numInstances : Option Int
deriving DecidableEq

/-- A deploy object; only its `status` field is read by the modelled code. -/
structure Deploy where
  status : Option String
deriving DecidableEq

/-- A service dictionary as returned by the Render API, restricted to the
keys the modelled handlers read.  A `none` field models an absent key. -/
structure Service where
  id : Option String
  name : Option String
  type : Option String
  ownerId : Option String
  repo : Option String
  branch : Option String
  createdAt : Option String
  updatedAt : Option String
  suspended : Option Bool
  autoDeploy : Option Bool
  serviceDetails : Option ServiceDetails
  deployments : Option (List Deploy)
deriving DecidableEq

/-- A service dictionary with every key absent (the Python `\x7b\x7d`). -/
def ServiceEmpty : Service :=
  { id := none, name := none, type := none, ownerId := none, repo := none,
    branch := none, createdAt := none, updatedAt := none, suspended := none,
    autoDeploy := none, serviceDetails := none, deployments := none }

/-- Python truthiness of an optional string: `not x` is true for `None`
and for the empty string. -/
def pyFalsy : Option String → Bool
  | none => true
  | some s => s.isEmpty

/-- Python `s.upper()` over the ASCII range (the only characters occurring
in HTTP verb strings), written on the character list so that it reduces. -/
def pyUpper (s : String) : String := String.mk (s.data.map Char.toUpper)

/-- Python `s.lower()` over the ASCII range, on the character list. -/
def pyLower (s : String) : String := String.mk (s.data.map Char.toLower)

/-- Python `s.strip()`: drop whitespace from both ends. -/
def pyStrip (s : String) : String :=
  String.mk (((s.data.dropWhile Char.isWhitespace).reverse.dropWhile
    Char.isWhitespace).reverse)

/-- bot.py line 30: base URL of the Render API. -/
def RENDER_API_BASE : String := "https://api.render.com/v1"

/-- bot.py lines 31-35: the `Authorization` header value built from
`RENDER_API_KEY`.  The Python f-string renders an unset key (`None`) as the
literal text `None`, so the header becomes `Bearer None`. -/
def HEADERS_authorization (render_api_key : Option String) : String :=
  "Bearer " ++ (match render_api_key with | some k => k | none => "None")

/-- The HTTP response seen by `make_render_request`: a status code and the
parsed JSON body (`none` when `response.json()` would fail to parse). -/
structure HttpResponse (α : Type) where
  status : Nat
  body : Option α
deriving DecidableEq

/-- Outcome of the single `requests.<method>(...)` call: either a response,
or a `requests.exceptions.RequestException` (every exception the requests
library raises derives from it) carrying its string rendering. -/
inductive HttpOutcome (α : Type) : Type where
  | ok (resp : HttpResponse α)
  | raises (msg : String)
deriving DecidableEq

/-- An upstream HTTP request as issued by `make_render_request`. -/
structure RRequest where
  method : String
  url : String
  authHeader : String
  payload : Option Payload
deriving DecidableEq

/-- The dictionary returned (as second component) by `make_render_request`:
either the parsed response body, the synthetic
`\x7b"message": "Operation successful"\x7d` marker built at the 204 branch, or an
error dictionary `\x7b"error": e[, "data": None]\x7d`. -/
inductive RenderDict (α : Type) : Type where
  | parsed (body : α)
  | messageDict (message : String)
  | errorDict (error : String) (dataNone : Bool)
deriving DecidableEq

/-- `response.get('error', 'Unknown error')` on a `RenderDict`. -/
def RenderDict.getErrorD {α : Type} : RenderDict α → String
  | .errorDict e _ => e
  | _ => "Unknown error"

/-- The `method.upper()` dispatch chain of bot.py lines 65-76: `some` of the
canonical verb for the five supported methods, `none` otherwise. -/
def dispatchMethod (method : String) : Option String :=
  if pyUpper method = "GET" then some "GET"
  else if pyUpper method = "POST" then some "POST"
  else if pyUpper method = "DELETE" then some "DELETE"
  else if pyUpper method = "PATCH" then some "PATCH"
  else if pyUpper method = "PUT" then some "PUT"
  else none

/-- `str(e)` for the `requests.HTTPError` raised by
`response.raise_for_status()`: `"<code> Client Error: <reason> for url: <url>"`
for 4xx and `"<code> Server Error: ..."` for 5xx.  The reason-and-url tail is
abstracted as the `reasonUrl` parameter. -/
def httpErrorString (status : Nat) (reasonUrl : String) : String :=
  toString status
    ++ (if status < 500 then " Client Error: " else " Server Error: ")
    ++ reasonUrl

/-- `str(e)` for the `requests.exceptions.JSONDecodeError` raised by
`response.json()` on a body that is not valid JSON (CPython's message for an
empty body). -/
def jsonDecodeErrMsg : String := "Expecting value: line 1 column 1 (char 0)"

/-- bot.py lines 60-89, `make_render_request`.  Returns the `(bool, dict)`
pair of the source together with the list of HTTP requests actually issued
(`[]` for an unsupported method, one request otherwise — the function never
retries).  `response.raise_for_status()` raises exactly for 400-599;
otherwise a 204 status yields the synthetic success marker, and any other
status parses the body, the parse failure being a `RequestException` caught
by the same `except` clause. -/
def make_render_request (α : Type) (key : Option String) (method : String)
    (endpoint : String) (data : Option Payload)
    (transport : HttpOutcome α) (reasonUrl : String) :
    (Bool × RenderDict α) × List RRequest :=
  match dispatchMethod method with
  | none => ((false, RenderDict.errorDict ("Unsupported method: " ++ method) false), [])
  | some m =>
    let req : RRequest :=
      { method := m
        url := RENDER_API_BASE ++ "/" ++ endpoint
        authHeader := HEADERS_authorization key
        -- requests.delete (line 70) is invoked without a params/json payload
        payload := if m = "DELETE" then none else data }
    match transport with
    | HttpOutcome.raises msg => ((false, RenderDict.errorDict msg true), [req])
    | HttpOutcome.ok resp =>
      if 400 ≤ resp.status ∧ resp.status < 600 then
        ((false, RenderDict.errorDict (httpErrorString resp.status reasonUrl) true), [req])
      else if resp.status = 204 then
        ((true, RenderDict.messageDict "Operation successful"), [req])
      else
        match resp.body with
        | some parsedBody => ((true, RenderDict.parsed parsedBody), [req])
        | none => ((false, RenderDict.errorDict jsonDecodeErrMsg true), [req])

/-- bot.py lines 48-58, `check_admin`: `(authorized?, replies sent)`.
`not ADMIN_USER_ID` is true both for `None` and for the empty string. -/
def check_admin (admin_user_id : Option String) (user_id : String) :
    Bool × List String :=
  if pyFalsy admin_user_id then (true, [])
  else if some user_id = admin_user_id then (true, [])
  else (false, ["❌ You are not authorized to use this bot."])

/-- bot.py lines 911-920: the startup checks of `main`.  Returns `true` iff
the process reaches handler registration and polling; with `BOT_TOKEN` or
`RENDER_TOKEN` unset (or empty) it logs an error and returns. -/
def main_startup (telegram_bot_token : Option String)
    (render_api_key : Option String) : Bool :=
  if pyFalsy telegram_bot_token then false
  else if pyFalsy render_api_key then false
  else true

/-- Result of one handler invocation: the Telegram replies it sends, or an
unhandled Python exception (delivered to `error_handler` by the framework)
together with the replies sent before the exception. -/
inductive HandlerOutcome : Type where
  | replies (msgs : List String)
  | crash (msgsSoFar : List String) (exn : String)
deriving DecidableEq

/-- bot.py lines 140-167: the `/start` welcome text. -/
def welcome_text : String :=
  "\n🚀 <b>Render Management Bot</b>\n\nWelcome! I can help you manage your Render.com services.\n\n<b>Available Commands:</b>\n• /services - List all services\n• /deployments <code>service_id</code> - List deployments\n• /logs <code>service_id</code> - Get service logs\n• /env <code>service_id</code> - Show environment variables\n• /domains <code>service_id</code> - List custom domains\n• /metrics <code>service_id</code> - Get service metrics\n• /usage - Check usage statistics\n\n<b>Quick Actions:</b>\n• /suspend <code>service_id</code> - Suspend a service\n• /resume <code>service_id</code> - Resume a service\n• /redeploy <code>service_id</code> - Redeploy a service\n• /restart <code>service_id</code> - Restart a service\n• /scale <code>service_id</code> <code>num_instances</code> - Scale service instances\n\n<b>Management:</b>\n• /create_service - Create a new service (interactive)\n• /delete_service <code>service_id</code> - Delete a service\n• /update_env <code>service_id</code> - Update environment variables\n\nType /help for more detailed information.\n    "

/-- bot.py lines 135-168, the `/start` handler: admin gate, then the welcome
message.  It issues no upstream request (keyboard-free handler). -/
def start (admin_user_id : Option String) (user_id : String) :
    HandlerOutcome × List RRequest :=
  match check_admin admin_user_id user_id with
  | (false, msgs) => (HandlerOutcome.replies msgs, [])
  | (true, _) => (HandlerOutcome.replies [welcome_text], [])

/-- bot.py lines 91-132, `format_service_info`: renders one service
dictionary.  Note that the defaults on lines 101-102 are the *string*
`'N/A'`, which is truthy, so a missing `suspended`/`autoDeploy` key takes
the positive branch of the conditional expressions on lines 120 and 123. -/
def format_service_info (service : Service) : String :=
  let service_id := service.id.getD "N/A"
  let name := service.name.getD "N/A"
  let service_type := service.type.getD "N/A"
  let owner_id := service.ownerId.getD "N/A"
  let repo := service.repo.getD "N/A"
  let branch := service.branch.getD "N/A"
  let created_at := service.createdAt.getD "N/A"
  let updated_at := service.updatedAt.getD "N/A"
  -- service.get('suspended', 'N/A'): the default is the truthy string "N/A"
  let suspendedText := match service.suspended with
    | none => "✅ Yes"
    | some b => if b then "✅ Yes" else "❌ No"
  -- service.get('autoDeploy', 'N/A'): same truthy-default behaviour
  let autoDeployText := match service.autoDeploy with
    | none => "✅ Enabled"
    | some b => if b then "✅ Enabled" else "❌ Disabled"
  -- details = service.get('serviceDetails', {}) and the three reads from it
  let env_vars := match service.serviceDetails with
    | none => []
    | some d => d.envVars.getD []
  let plan := match service.serviceDetails with
    | none => "free"
    | some d => d.plan.getD "free"
  let num_instances := match service.serviceDetails with
    | none => (1 : Int)
    | some d => d.numInstances.getD 1
  let deployments := service.deployments.getD []
  let deploy_status := match deployments with
    | [] => "N/A"
    | d :: _ => d.status.getD "N/A"
  -- created_at / updated_at are always strings here, so the isinstance
  -- guard on lines 127-128 always takes the [:10] slice
  "\n📦 <b>" ++ name ++ "</b> (" ++ service_id ++ ")\n"
    ++ "━━━━━━━━━━━━━━━━━━━━━━━━\n"
    ++ "• Type: " ++ service_type ++ "\n"
    ++ "• Status: " ++ deploy_status ++ "\n"
    ++ "• Suspended: " ++ suspendedText ++ "\n"
    ++ "• Plan: " ++ plan ++ "\n"
    ++ "• Instances: " ++ toString num_instances ++ "\n"
    ++ "• Auto-deploy: " ++ autoDeployText ++ "\n"
    ++ "• Repository: " ++ repo ++ "\n"
    ++ "• Branch: " ++ branch ++ "\n"
    ++ "• Owner: " ++ owner_id ++ "\n"
    ++ "• Created: " ++ String.mk (created_at.data.take 10) ++ "\n"
    ++ "• Updated: " ++ String.mk (updated_at.data.take 10) ++ "\n"
    ++ "• Env Variables: " ++ toString env_vars.length ++ "\n"
    ++ "━━━━━━━━━━━━━━━━━━━━━━━━\n"

/-- bot.py lines 279-280: the Telegram-limit guard applied to composite
messages before sending (`message[:4000]` keeps the first 4000 characters,
written here as a take on the character list). -/
def truncateMessage (message : String) : String :=
  if message.length > 4000 then
    String.mk (message.data.take 4000) ++ "\n... (truncated)"
  else message

/-- bot.py lines 355-356: the same guard for the `/logs` output, with its
own marker text. -/
def truncateLogs (logs : String) : String :=
  if logs.length > 4000 then
    String.mk (logs.data.take 4000) ++ "\n\n... (logs truncated)"
  else logs

/-- bot.py lines 241-256: one entry of the `/services` list message. -/
def serviceEntry (i : Nat) (total : Nat) (service : Service) : String :=
  let service_id := service.id.getD "N/A"
  let name := service.name.getD "N/A"
  let service_type := service.type.getD "N/A"
  let suspended := service.suspended.getD false
  let status := if suspended then "⏸ Suspended" else "▶️ Running"
  let deployments := service.deployments.getD []
  let deploy_status := match deployments with
    | [] => "unknown"
    | d :: _ => d.status.getD "unknown"
  toString i ++ ". <b>" ++ name ++ "</b>\n"
    ++ "   ID: <code>" ++ service_id ++ "</code>\n"
    ++ "   Type: " ++ service_type ++ " | Status: " ++ deploy_status ++ " | " ++ status ++ "\n"
    ++ (if i < total then "   ━\n" else "")

/-- bot.py lines 239-256: the composite `/services` list message. -/
def servicesMessage (services : List Service) : String :=
  "📋 <b>Your Services (" ++ toString services.length ++ ")</b>\n━━━━━━━━━━━━━━━━━━━━━━━━\n"
    ++ String.join ((services.enumFrom 1).map fun p => serviceEntry p.1 services.length p.2)

/-- The reply portion of `list_services` as a function of the
`make_render_request` result (bot.py lines 230-286).  A success whose body
is the 204 marker dict would make the Python iterate the dict's keys and
call `.get` on a string, raising `AttributeError` (modelled as a crash).
The inline-keyboard markup built on lines 258-276 is UI-only and not
modelled. -/
def list_services_reply (pre : List String) :
    Bool × RenderDict (List Service) → HandlerOutcome
  | (false, response) =>
      HandlerOutcome.replies (pre ++ ["❌ Error: " ++ response.getErrorD])
  | (true, RenderDict.parsed services) =>
      if services.isEmpty then HandlerOutcome.replies (pre ++ ["📭 No services found."])
      else HandlerOutcome.replies (pre ++ [truncateMessage (servicesMessage services)])
  | (true, _) =>
      HandlerOutcome.crash pre "AttributeError: str object has no attribute get"

/-- bot.py lines 221-286, the `/services` handler. -/
def list_services (admin_user_id : Option String) (user_id : String)
    (key : Option String) (transport : HttpOutcome (List Service))
    (reasonUrl : String) : HandlerOutcome × List RRequest :=
  match check_admin admin_user_id user_id with
  | (false, msgs) => (HandlerOutcome.replies msgs, [])
  | (true, _) =>
    let pre := ["📡 Fetching your services..."]
    let res := make_render_request (List Service) key "GET" "services"
      (some [("limit", 50)]) transport reasonUrl
    (list_services_reply pre res.1, res.2)

/-- bot.py lines 288-329, the `/info` handler (keyboard markup not
modelled).  A 204-marker success body renders exactly like an all-absent
dictionary, since every `.get` falls back to its default. -/
def service_info (admin_user_id : Option String) (user_id : String)
    (key : Option String) (args : List String) (transport : HttpOutcome Service)
    (reasonUrl : String) : HandlerOutcome × List RRequest :=
  match check_admin admin_user_id user_id with
  | (false, msgs) => (HandlerOutcome.replies msgs, [])
  | (true, _) =>
    match args with
    | [] => (HandlerOutcome.replies
        ["❌ Please provide a service ID.\nExample: /info srv-abc123def456"], [])
    | service_id :: _ =>
      let pre := ["🔍 Fetching info for service: " ++ service_id]
      let res := make_render_request Service key "GET" ("services/" ++ service_id)
        none transport reasonUrl
      match res.1 with
      | (false, response) =>
          (HandlerOutcome.replies (pre ++ ["❌ Error: " ++ response.getErrorD]), res.2)
      | (true, RenderDict.parsed svc) =>
          (HandlerOutcome.replies (pre ++ [format_service_info svc]), res.2)
      | (true, _) =>
          (HandlerOutcome.replies (pre ++ [format_service_info ServiceEmpty]), res.2)

/-- The body type the `/logs` handler assumes: a dict with a `logs` key. -/
structure LogsBody where
  logs : Option String
deriving DecidableEq

/-- bot.py lines 331-358, the `/logs` handler. -/
def service_logs (admin_user_id : Option String) (user_id : String)
    (key : Option String) (args : List String) (transport : HttpOutcome LogsBody)
    (reasonUrl : String) : HandlerOutcome × List RRequest :=
  match check_admin admin_user_id user_id with
  | (false, msgs) => (HandlerOutcome.replies msgs, [])
  | (true, _) =>
    match args with
    | [] => (HandlerOutcome.replies
        ["❌ Please provide a service ID.\nExample: /logs srv-abc123def456"], [])
    | service_id :: _ =>
      let pre := ["📜 Fetching logs for service: " ++ service_id]
      let res := make_render_request LogsBody key "GET"
        ("services/" ++ service_id ++ "/logs") none transport reasonUrl
      match res.1 with
      | (false, response) =>
          (HandlerOutcome.replies (pre ++ ["❌ Error: " ++ response.getErrorD]), res.2)
      | (true, response) =>
        -- logs = response.get('logs', '')
        let logs := match response with
          | RenderDict.parsed b => b.logs.getD ""
          | _ => ""
        if logs.isEmpty then
          (HandlerOutcome.replies (pre ++ ["📭 No logs available."]), res.2)
        else
          (HandlerOutcome.replies (pre ++ ["<pre>" ++ truncateLogs logs ++ "</pre>"]), res.2)

/-- Digit run of a Python integer literal: digits with single underscores
allowed between digits (`int('1_0')` is 10).  Unicode digits are not
modelled. -/
def pyIntRest : List Char → Bool
  | [] => true
  | '_' :: c :: rest => c.isDigit && pyIntRest rest
  | '_' :: [] => false
  | c :: rest => c.isDigit && pyIntRest rest

/-- Whole digit part: nonempty and well-formed. -/
def pyIntDigits : List Char → Bool
  | [] => false
  | c :: rest => c.isDigit && pyIntRest rest

/-- Python `int(s)`: optional surrounding whitespace, optional single sign,
then a digit run; `none` models the `ValueError` branch. -/
def pyInt (s : String) : Option Int :=
  let t := (pyStrip s).data
  let signAndDigits : Int × List Char :=
    match t with
    | '-' :: r => (-1, r)
    | '+' :: r => (1, r)
    | r => (1, r)
  if pyIntDigits signAndDigits.2 then
    some (signAndDigits.1 * Int.ofNat
      ((signAndDigits.2.filter fun c => c != '_').foldl
        (fun a c => a * 10 + (c.toNat - 48)) 0))
  else none

/-- bot.py lines 488-523, the `/scale` handler.  All three input checks
happen before any network interaction.  On well-formed input, line 510
calls `make_render_request` without `await`, so unpacking the coroutine
object raises `TypeError` before any HTTP request is issued (the handler
therefore never reaches the PATCH on line 518). -/
def scale_service (admin_user_id : Option String) (user_id : String)
    (key : Option String) (args : List String) (transport : HttpOutcome Service)
    (reasonUrl : String) : HandlerOutcome × List RRequest :=
  match check_admin admin_user_id user_id with
  | (false, msgs) => (HandlerOutcome.replies msgs, [])
  | (true, _) =>
    if args.length < 2 then
      (HandlerOutcome.replies
        ["❌ Please provide service ID and number of instances.\nExample: /scale srv-abc123def456 2"], [])
    else
      match args with
      | service_id :: nstr :: _ =>
        match pyInt nstr with
        | none =>
            (HandlerOutcome.replies ["❌ Please provide a valid number for instances."], [])
        | some num_instances =>
          if num_instances < 1 then
            (HandlerOutcome.replies ["❌ Number of instances must be at least 1."], [])
          else
            (HandlerOutcome.crash
              ["📊 Scaling service " ++ service_id ++ " to "
                ++ toString num_instances ++ " instance(s)"]
              "TypeError: cannot unpack non-iterable coroutine object", [])
      | _ =>
        -- unreachable: args.length ≥ 2 guarantees two leading elements
        (HandlerOutcome.replies
          ["❌ Please provide service ID and number of instances.\nExample: /scale srv-abc123def456 2"], [])

/-- The body type of the whoami-style validation endpoint (a user object;
its contents are not read by the modelled flow). -/
structure UserBody where
  email : Option String
deriving DecidableEq

/-- Modelled from the spec: `src/bot.py` registers no `/login` handler — the
per-user login flow exists only in the later variants the spec describes
(§4.1, §4.2, §4.5, §6).  Per the spec, the typed text is validated with a
whoami-style GET issued through the API gateway using the typed token, and
"a 200 response is accepted as proof of a valid token, any other status
rejects the login attempt".  Returns the session token after the attempt
(unchanged when the login is rejected) and the requests issued. -/
def login_continuation (session : Option String) (typed : String)
    (resp : HttpResponse UserBody) (reasonUrl : String) :
    Option String × List RRequest :=
  let res := make_render_request UserBody (some typed) "GET" "users" none
    (HttpOutcome.ok resp) reasonUrl
  if resp.status = 200 then (some typed, res.2) else (session, res.2)

/-- Modelled from the spec: `src/bot.py` has no deletion-confirmation
continuation (no delete handler is registered in `main`).  Per the spec
(§4.5, §8), the typed reply must equal the literal word CONFIRM after
trimming and case-folding; any other reply cancels with a cancellation
message and no call to the delete endpoint.  Returns
`((confirmed?, replies), requests issued)`. -/
def delete_confirmation (service_id : String) (key : Option String)
    (reply : String) (transport : HttpOutcome Service) (reasonUrl : String) :
    (Bool × List String) × List RRequest :=
  if pyLower (pyStrip reply) = "confirm" then
    let res := make_render_request Service key "DELETE" ("services/" ++ service_id)
      none transport reasonUrl
    ((true, [if res.1.1 then "✅ Service deleted."
             else "❌ Error: " ++ res.1.2.getErrorD]), res.2)
  else
    ((false, ["❎ Deletion cancelled."]), [])

/-- `strLeads needle hay`: `needle` is an initial run of `hay`. -/
def strLeads : List Char → List Char → Bool
  | [], _ => true
  | _ :: _, [] => false
  | a :: as, b :: bs => a == b && strLeads as bs

/-- `strHas needle hay`: `needle` occurs contiguously inside `hay`. -/
def strHas (needle : List Char) : List Char → Bool
  | [] => strLeads needle []
  | c :: t => strLeads needle (c :: t) || strHas needle t

/-- Substring test on strings (used to state what a rendered display
string does and does not contain). -/
def strContains (hay needle : String) : Bool := strHas needle.data hay.data

/-! ## Gateway lemmas -/

/-- For every supported method, `make_render_request` issues exactly one
HTTP request, whatever the transport does. -/
theorem make_render_request_reqs (α : Type) (key : Option String)
    (method m endpoint : String) (data : Option Payload)
    (transport : HttpOutcome α) (ru : String)
    (h : dispatchMethod method = some m) :
    (make_render_request α key method endpoint data transport ru).2
      = [{ method := m, url := RENDER_API_BASE ++ "/" ++ endpoint,
           authHeader := HEADERS_authorization key,
           payload := if m = "DELETE" then none else data }] := by
  unfold make_render_request
  rw [h]
  cases transport with
  | raises msg => rfl
  | ok resp =>
    by_cases h1 : 400 ≤ resp.status ∧ resp.status < 600
    · simp only [if_pos h1]
    · by_cases h2 : resp.status = 204
      · simp only [if_neg h1, if_pos h2]
      · cases hb : resp.body with
        | some b => simp only [if_neg h1, if_neg h2, hb]
        | none => simp only [if_neg h1, if_neg h2, hb]

/-- Claim C3 as stated is false: a response with the 2xx status 200 whose
body is not parseable JSON (for example an empty body) makes
`response.json()` raise, and `make_render_request` returns an error result,
not success — so success is not equivalent to "status is 2xx". -/
theorem c3_counterexample :
    (make_render_request (List Service) none "GET" "services" none
        (HttpOutcome.ok ⟨200, none⟩) "OK for url: u").1
      = (false, RenderDict.errorDict jsonDecodeErrMsg true)
    ∧ 200 / 100 = 2 := ⟨by decide, rfl⟩

/-- Claim C3 amended: for a supported method, `make_render_request` returns
success exactly when the status is outside 400-599 and either the status is
204 or the body parses as JSON; every 4xx/5xx response yields an error
result carrying the `raise_for_status` message (which begins with the
status code); and exactly one HTTP request is issued per invocation — the
call is never retried. -/
theorem c3_amended (α : Type) (key : Option String) (method m endpoint : String)
    (data : Option Payload) (resp : HttpResponse α) (ru : String)
    (h : dispatchMethod method = some m) :
    ((make_render_request α key method endpoint data (HttpOutcome.ok resp) ru).1.1 = true
       ↔ (¬(400 ≤ resp.status ∧ resp.status < 600)
           ∧ (resp.status = 204 ∨ resp.body.isSome = true)))
    ∧ ((400 ≤ resp.status ∧ resp.status < 600) →
        (make_render_request α key method endpoint data (HttpOutcome.ok resp) ru).1
          = (false, RenderDict.errorDict (httpErrorString resp.status ru) true))
    ∧ (∀ transport : HttpOutcome α,
        (make_render_request α key method endpoint data transport ru).2.length = 1) := by
  refine ⟨?_, ?_, ?_⟩
  · unfold make_render_request
    rw [h]
    by_cases h1 : 400 ≤ resp.status ∧ resp.status < 600
    · simp [h1]
    · by_cases h2 : resp.status = 204
      · simp [h1, h2]
      · cases hb : resp.body with
        | some b => simp [h1, h2, hb]
        | none => simp [h1, h2, hb]
  · intro h1
    unfold make_render_request
    rw [h]
    simp only [if_pos h1]
  · intro transport
    rw [make_render_request_reqs α key method m endpoint data transport ru h]
    rfl

/-- Witness for `c3_amended` at a concrete input: a 503 response maps to an
error result carrying the `raise_for_status` message, with one request
issued. -/
theorem c3_amended_witness :
    (make_render_request (List Service) none "GET" "services" none
        (HttpOutcome.ok ⟨503, none⟩) "Service Unavailable for url: u").1
      = (false, RenderDict.errorDict
          (httpErrorString 503 "Service Unavailable for url: u") true) :=
  (c3_amended (List Service) none "GET" "GET" "services" none ⟨503, none⟩
    "Service Unavailable for url: u" (by decide)).2.1 (by decide)

/-- Claim C4: a 204 No Content response (empty, unparseable body) yields a
success result carrying the synthetic `message: Operation successful`
marker, not a body-parse error. -/
theorem c4_no_content (α : Type) (key : Option String) (method m endpoint : String)
    (data : Option Payload) (ru : String)
    (h : dispatchMethod method = some m) :
    (make_render_request α key method endpoint data
        (HttpOutcome.ok ⟨204, none⟩) ru).1
      = (true, RenderDict.messageDict "Operation successful") := by
  unfold make_render_request
  rw [h]
  rfl

/-- Witness for `c4_no_content`: a 204 on the suspend endpoint. -/
theorem c4_no_content_witness :
    (make_render_request (List Service) none "POST" "services/srv-x/suspend" none
        (HttpOutcome.ok ⟨204, none⟩) "u").1
      = (true, RenderDict.messageDict "Operation successful") :=
  c4_no_content (List Service) none "POST" "POST" "services/srv-x/suspend" none "u" (by decide)

/-- Claim C9: `make_render_request` is total over its interface — an
unsupported method returns a failure pair without issuing any HTTP request,
and a transport-layer `RequestException` is caught and converted into a
failure pair carrying the exception's message, never propagated. -/
theorem c9_total (α : Type) (key : Option String) (method endpoint : String)
    (data : Option Payload) (transport : HttpOutcome α)
    (ru : String) :
    (dispatchMethod method = none →
      make_render_request α key method endpoint data transport ru
        = ((false, RenderDict.errorDict ("Unsupported method: " ++ method) false), []))
    ∧ (∀ m msg, dispatchMethod method = some m →
        transport = HttpOutcome.raises msg →
        make_render_request α key method endpoint data transport ru
          = ((false, RenderDict.errorDict msg true),
             [{ method := m, url := RENDER_API_BASE ++ "/" ++ endpoint,
                authHeader := HEADERS_authorization key,
                payload := if m = "DELETE" then none else data }])) := by
  constructor
  · intro h
    unfold make_render_request
    rw [h]
  · intro m msg hm ht
    unfold make_render_request
    rw [hm, ht]

/-- Witness for `c9_total`: the unsupported verb TRACE issues no request,
and a connection error on a lowercase `get` is converted to an error pair. -/
theorem c9_total_witness :
    (make_render_request (List Service) none "TRACE" "services" none
        (HttpOutcome.raises "boom") "u"
      = ((false, RenderDict.errorDict ("Unsupported method: " ++ "TRACE") false), []))
    ∧ (make_render_request (List Service) none "get" "services" none
        (HttpOutcome.raises "boom") "u"
      = ((false, RenderDict.errorDict "boom" true),
         [{ method := "GET", url := RENDER_API_BASE ++ "/" ++ "services",
            authHeader := HEADERS_authorization none, payload := none }])) :=
  ⟨(c9_total (List Service) none "TRACE" "services" none (HttpOutcome.raises "boom") "u").1 (by decide),
   (c9_total (List Service) none "get" "services" none (HttpOutcome.raises "boom") "u").2
     "GET" "boom" (by decide) rfl⟩

/-! ## Authentication and authorization -/

/-- Claim C1 as stated is false: there is no per-session token in this
variant, and with no provider key stored (`RENDER_API_KEY` unset, so the
header is `Bearer None`), the `/services` handler still issues one upstream
HTTP call and replies with an upstream error, not with a "not logged in"
instruction. -/
theorem c1_counterexample :
    (list_services none "42" none (HttpOutcome.ok ⟨401, none⟩)
        "Unauthorized for url: https://api.render.com/v1/services").2.length = 1
    ∧ (list_services none "42" none (HttpOutcome.ok ⟨401, none⟩)
        "Unauthorized for url: https://api.render.com/v1/services").1
      = HandlerOutcome.replies ["📡 Fetching your services...",
          "❌ Error: 401 Client Error: Unauthorized for url: https://api.render.com/v1/services"] :=
  ⟨by decide, by decide⟩

/-- Claim C1 amended: the provider token is process-wide, not per-session.
When it is unset, the startup check in `main` returns before the dispatcher
starts (so no command handler ever runs); the handlers themselves never
check for a token — with no key, `/services` always issues exactly one
upstream request, carrying the authorization header `Bearer None`. -/
theorem c1_amended :
    (∀ bt : Option String, main_startup bt none = false)
    ∧ (∀ (uid ru : String) (transport : HttpOutcome (List Service)),
        (list_services none uid none transport ru).2
          = [{ method := "GET", url := RENDER_API_BASE ++ "/" ++ "services",
               authHeader := "Bearer None", payload := some [("limit", 50)] }]) := by
  constructor
  · intro bt
    cases bt with
    | none => rfl
    | some s => cases h : s.isEmpty <;> simp [main_startup, pyFalsy, h]
  · intro uid ru transport
    show (make_render_request (List Service) none "GET" "services"
      (some [("limit", 50)]) transport ru).2 = _
    rw [make_render_request_reqs (List Service) none "GET" "GET" "services"
      (some [("limit", 50)]) transport ru (by decide)]
    decide

/-- Claim C10 as stated is false on one edge: `not ADMIN_USER_ID` is also
true when the variable is *set to the empty string*, in which case every
user is authorized even though no user id equals the configured value. -/
theorem c10_counterexample :
    check_admin (some "") "12345" = (true, []) ∧ ("12345" : String) ≠ "" :=
  ⟨by decide, by decide⟩

/-- Claim C10 amended: `check_admin` authorizes every user when
`ADMIN_USER_ID` is unset *or empty*; when it is set to a nonempty value,
exactly the user whose id string equals it passes, and every other user
receives the unauthorized reply while the invoking handler (`start`,
`list_services`) returns without issuing any upstream call. -/
theorem c10_amended (admin : Option String) (uid : String) :
    (admin = none → check_admin admin uid = (true, []))
    ∧ (∀ s, admin = some s → s.isEmpty = false →
        ((check_admin admin uid).1 = true ↔ uid = s))
    ∧ (∀ s, admin = some s → s.isEmpty = false → uid ≠ s →
        check_admin admin uid
          = (false, ["❌ You are not authorized to use this bot."])
        ∧ start admin uid
          = (HandlerOutcome.replies ["❌ You are not authorized to use this bot."], [])
        ∧ (∀ (key : Option String) (transport : HttpOutcome (List Service)) (ru : String),
            list_services admin uid key transport ru
              = (HandlerOutcome.replies ["❌ You are not authorized to use this bot."], []))) := by
  refine ⟨?_, ?_, ?_⟩
  · intro h
    subst h
    rfl
  · intro s hs hne
    subst hs
    unfold check_admin pyFalsy
    by_cases he : uid = s <;> simp [hne, he]
  · intro s hs hne hneq
    subst hs
    have hca : check_admin (some s) uid
        = (false, ["❌ You are not authorized to use this bot."]) := by
      unfold check_admin pyFalsy
      simp [hne, hneq]
    refine ⟨hca, ?_, ?_⟩
    · simp [start, hca]
    · intro key transport ru
      simp [list_services, hca]

/-- Witness for `c10_amended`: with admin id `7`, user `9` is rejected by
`check_admin`, `start`, and `list_services`, with no request issued. -/
theorem c10_amended_witness :
    check_admin (some "7") "9"
      = (false, ["❌ You are not authorized to use this bot."])
    ∧ start (some "7") "9"
      = (HandlerOutcome.replies ["❌ You are not authorized to use this bot."], [])
    ∧ list_services (some "7") "9" none (HttpOutcome.raises "x") "u"
      = (HandlerOutcome.replies ["❌ You are not authorized to use this bot."], []) := by
  have h := (c10_amended (some "7") "9").2.2 "7" rfl (by decide) (by decide)
  exact ⟨h.1, h.2.1, h.2.2 none (HttpOutcome.raises "x") "u"⟩

/-! ## Spec-modelled continuations -/

/-- Claim C2: the login continuation stores the typed token exactly when the
whoami-style validation call through the gateway returns HTTP 200; any other
status leaves the stored token unchanged.  Exactly one GET is issued, using
the typed token as bearer. -/
theorem c2_login_stores_iff_200 (session : Option String) (typed ru : String)
    (resp : HttpResponse UserBody) :
    (resp.status = 200 → (login_continuation session typed resp ru).1 = some typed)
    ∧ (resp.status ≠ 200 → (login_continuation session typed resp ru).1 = session)
    ∧ (login_continuation session typed resp ru).2
      = [{ method := "GET", url := RENDER_API_BASE ++ "/" ++ "users",
           authHeader := "Bearer " ++ typed, payload := none }] := by
  have hr := make_render_request_reqs UserBody (some typed) "GET" "GET" "users" none
    (HttpOutcome.ok resp) ru (by decide)
  refine ⟨?_, ?_, ?_⟩ <;> simp only [login_continuation]
  · intro h
    rw [if_pos h]
  · intro h
    rw [if_neg h]
  · by_cases h : resp.status = 200
    · rw [if_pos h, hr]
      rfl
    · rw [if_neg h, hr]
      rfl

/-- Witness for `c2_login_stores_iff_200`: a 200 whoami response stores the
typed token; a 404 leaves the previous session token in place. -/
theorem c2_login_witness :
    (login_continuation none "tok-1" ⟨200, some ⟨some "me@example.com"⟩⟩ "u").1
      = some "tok-1"
    ∧ (login_continuation (some "old") "tok-2" ⟨404, none⟩ "u").1 = some "old" :=
  ⟨(c2_login_stores_iff_200 none "tok-1" "u" ⟨200, some ⟨some "me@example.com"⟩⟩).1 rfl,
   (c2_login_stores_iff_200 (some "old") "tok-2" "u" ⟨404, none⟩).2.1 (by decide)⟩

/-- Claim C5: a typed reply equal to CONFIRM after trimming and case-folding
confirms the deletion (one DELETE request is issued); any other reply
cancels with a cancellation message and issues no request at all. -/
theorem c5_confirm_gate (service_id : String) (key : Option String)
    (reply ru : String) (transport : HttpOutcome Service) :
    (pyLower (pyStrip reply) = "confirm" →
      (delete_confirmation service_id key reply transport ru).1.1 = true
      ∧ (delete_confirmation service_id key reply transport ru).2
        = [{ method := "DELETE",
             url := RENDER_API_BASE ++ "/" ++ ("services/" ++ service_id),
             authHeader := HEADERS_authorization key, payload := none }])
    ∧ (pyLower (pyStrip reply) ≠ "confirm" →
        delete_confirmation service_id key reply transport ru
          = ((false, ["❎ Deletion cancelled."]), [])) := by
  constructor
  · intro h
    constructor
    · simp only [delete_confirmation]
      rw [if_pos h]
    · simp only [delete_confirmation]
      rw [if_pos h]
      rw [make_render_request_reqs Service key "DELETE" "DELETE"
        ("services/" ++ service_id) none transport ru (by decide)]
      simp
  · intro h
    simp only [delete_confirmation]
    rw [if_neg h]

/-- Witness for `c5_confirm_gate`: `CONFIRM`, `confirm` and `  Confirm  `
all confirm; `delete it` cancels with no request. -/
theorem c5_confirm_witness :
    (delete_confirmation "srv-1" (some "k") "CONFIRM"
        (HttpOutcome.ok ⟨204, none⟩) "u").1.1 = true
    ∧ (delete_confirmation "srv-1" (some "k") "confirm"
        (HttpOutcome.ok ⟨204, none⟩) "u").1.1 = true
    ∧ (delete_confirmation "srv-1" (some "k") "  Confirm  "
        (HttpOutcome.ok ⟨204, none⟩) "u").1.1 = true
    ∧ delete_confirmation "srv-1" (some "k") "delete it"
        (HttpOutcome.ok ⟨204, none⟩) "u"
      = ((false, ["❎ Deletion cancelled."]), []) :=
  ⟨((c5_confirm_gate "srv-1" (some "k") "CONFIRM" "u"
      (HttpOutcome.ok ⟨204, none⟩)).1 (by decide)).1,
   ((c5_confirm_gate "srv-1" (some "k") "confirm" "u"
      (HttpOutcome.ok ⟨204, none⟩)).1 (by decide)).1,
   ((c5_confirm_gate "srv-1" (some "k") "  Confirm  " "u"
      (HttpOutcome.ok ⟨204, none⟩)).1 (by decide)).1,
   (c5_confirm_gate "srv-1" (some "k") "delete it" "u"
      (HttpOutcome.ok ⟨204, none⟩)).2 (by decide)⟩

/-! ## Input validation, formatting and truncation -/

set_option maxRecDepth 16384

/-- Claim C6: malformed user input — a missing argument, a non-numeric
instance count, or an instance count below 1 — is rejected locally with a
format hint and no upstream HTTP call is attempted. -/
theorem c6_malformed_rejected_locally (uid ru : String) (key : Option String) :
    (∀ transport : HttpOutcome Service,
       service_info none uid key [] transport ru
         = (HandlerOutcome.replies
             ["❌ Please provide a service ID.\nExample: /info srv-abc123def456"], []))
    ∧ (∀ (transport : HttpOutcome Service) (args : List String), args.length < 2 →
        scale_service none uid key args transport ru
          = (HandlerOutcome.replies
              ["❌ Please provide service ID and number of instances.\nExample: /scale srv-abc123def456 2"], []))
    ∧ (∀ (transport : HttpOutcome Service) (sid nstr : String) (rest : List String),
        pyInt nstr = none →
        scale_service none uid key (sid :: nstr :: rest) transport ru
          = (HandlerOutcome.replies ["❌ Please provide a valid number for instances."], []))
    ∧ (∀ (transport : HttpOutcome Service) (sid nstr : String) (rest : List String)
        (n : Int), pyInt nstr = some n → n < 1 →
        scale_service none uid key (sid :: nstr :: rest) transport ru
          = (HandlerOutcome.replies ["❌ Number of instances must be at least 1."], [])) := by
  refine ⟨?_, ?_, ?_, ?_⟩
  · intro transport
    rfl
  · intro transport args h
    show (if args.length < 2 then _ else _) = _
    rw [if_pos h]
  · intro transport sid nstr rest hpy
    have hlen : ¬((sid :: nstr :: rest).length < 2) := by simp
    simp [scale_service, check_admin, pyFalsy, hpy, hlen]
  · intro transport sid nstr rest n hpy hn
    have hlen : ¬((sid :: nstr :: rest).length < 2) := by simp
    simp [scale_service, check_admin, pyFalsy, hpy, hlen, hn]

/-- Witness for `c6_malformed_rejected_locally` on concrete inputs:
`/info` with no argument, `/scale srv-1`, `/scale srv-1 abc`, and
`/scale srv-1 0`. -/
theorem c6_malformed_witness :
    service_info none "u" (some "k") [] (HttpOutcome.raises "x") "r"
      = (HandlerOutcome.replies
          ["❌ Please provide a service ID.\nExample: /info srv-abc123def456"], [])
    ∧ scale_service none "u" (some "k") ["srv-1"] (HttpOutcome.raises "x") "r"
      = (HandlerOutcome.replies
          ["❌ Please provide service ID and number of instances.\nExample: /scale srv-abc123def456 2"], [])
    ∧ scale_service none "u" (some "k") ["srv-1", "abc"] (HttpOutcome.raises "x") "r"
      = (HandlerOutcome.replies ["❌ Please provide a valid number for instances."], [])
    ∧ scale_service none "u" (some "k") ["srv-1", "0"] (HttpOutcome.raises "x") "r"
      = (HandlerOutcome.replies ["❌ Number of instances must be at least 1."], []) :=
  ⟨(c6_malformed_rejected_locally "u" "r" (some "k")).1 (HttpOutcome.raises "x"),
   (c6_malformed_rejected_locally "u" "r" (some "k")).2.1 (HttpOutcome.raises "x")
     ["srv-1"] (by decide),
   (c6_malformed_rejected_locally "u" "r" (some "k")).2.2.1 (HttpOutcome.raises "x")
     "srv-1" "abc" [] (by decide),
   (c6_malformed_rejected_locally "u" "r" (some "k")).2.2.2 (HttpOutcome.raises "x")
     "srv-1" "0" [] 0 (by decide) (by decide)⟩

/-- Claim C7 as stated is false: on a service dictionary with no `suspended`
key, `format_service_info` renders the Suspended line as `✅ Yes`, not as
the placeholder `N/A` — the `'N/A'` default is a truthy string, so the
conditional on line 120 takes its positive branch. -/
theorem c7_counterexample :
    strContains (format_service_info ServiceEmpty) "• Suspended: N/A" = false
    ∧ strContains (format_service_info ServiceEmpty) "• Suspended: ✅ Yes" = true
    ∧ ServiceEmpty.suspended = none :=
  ⟨by decide, by decide, rfl⟩

/-- A populated service dictionary used to pin down the formatter's output
on present fields. -/
def ServiceSample : Service :=
  { ServiceEmpty with
      id := some "srv-abc123"
      name := some "web-app"
      suspended := some false
      autoDeploy := some true
      createdAt := some "2024-05-01T12:00:00Z"
      serviceDetails := some { envVars := some [⟨"NODE_ENV", "production"⟩, ⟨"PORT", "8080"⟩],
                               plan := some "starter", numInstances := some 3 }
      deployments := some [{ status := some "live" }] }

/-- Claim C7 amended: `format_service_info` is a pure total function;
missing string-valued fields (id, name, type, repository, branch, owner,
created, updated, deploy status) render as the literal `N/A`; a missing
`suspended` or `autoDeploy` field renders as `✅ Yes` / `✅ Enabled`
because the `'N/A'` default is truthy; a missing `serviceDetails` yields
plan `free`, instance count `1` and env-var count `0`; present fields flow
through unchanged (with the created/updated dates cut to 10 characters). -/
theorem c7_missing_field_defaults :
    format_service_info ServiceEmpty
      = "\n📦 <b>N/A</b> (N/A)\n━━━━━━━━━━━━━━━━━━━━━━━━\n• Type: N/A\n• Status: N/A\n• Suspended: ✅ Yes\n• Plan: free\n• Instances: 1\n• Auto-deploy: ✅ Enabled\n• Repository: N/A\n• Branch: N/A\n• Owner: N/A\n• Created: N/A\n• Updated: N/A\n• Env Variables: 0\n━━━━━━━━━━━━━━━━━━━━━━━━\n"
    ∧ format_service_info ServiceSample
      = "\n📦 <b>web-app</b> (srv-abc123)\n━━━━━━━━━━━━━━━━━━━━━━━━\n• Type: N/A\n• Status: live\n• Suspended: ❌ No\n• Plan: starter\n• Instances: 3\n• Auto-deploy: ✅ Enabled\n• Repository: N/A\n• Branch: N/A\n• Owner: N/A\n• Created: 2024-05-01\n• Updated: N/A\n• Env Variables: 2\n━━━━━━━━━━━━━━━━━━━━━━━━\n" :=
  ⟨by decide, by decide⟩

/-- Claim C8: the composite-message truncation used by `list_services` and
`service_logs` — any over-long text is cut to the first 4000 characters and
the fixed truncation marker is appended, so the sent text never exceeds
4000 characters plus the marker's length. -/
theorem c8_truncation_bound (message logText : String) :
    ((truncateMessage message).length ≤ 4000 + "\n... (truncated)".length)
    ∧ (message.length > 4000 →
        truncateMessage message
          = String.mk (message.data.take 4000) ++ "\n... (truncated)")
    ∧ ((truncateLogs logText).length ≤ 4000 + "\n\n... (logs truncated)".length)
    ∧ (logText.length > 4000 →
        truncateLogs logText
          = String.mk (logText.data.take 4000) ++ "\n\n... (logs truncated)") := by
  have hm : ("\n... (truncated)" : String).length = 16 := rfl
  have hl : ("\n\n... (logs truncated)" : String).length = 22 := rfl
  refine ⟨?_, ?_, ?_, ?_⟩
  · unfold truncateMessage
    split
    · rw [String.length_append]
      have h1 : (String.mk (message.data.take 4000)).length
          = (message.data.take 4000).length := rfl
      rw [h1, List.length_take, hm]
      omega
    · rename_i h
      rw [hm]
      simp only [String.length] at h ⊢
      omega
  · intro h
    unfold truncateMessage
    rw [if_pos h]
  · unfold truncateLogs
    split
    · rw [String.length_append]
      have h1 : (String.mk (logText.data.take 4000)).length
          = (logText.data.take 4000).length := rfl
      rw [h1, List.length_take, hl]
      omega
    · rename_i h
      rw [hl]
      simp only [String.length] at h ⊢
      omega
  · intro h
    unfold truncateLogs
    rw [if_pos h]

/-- A 4096-character message, exceeding the 4000-character bound. -/
def longMsg : String := String.mk (List.replicate 4096 'x')

/-- Witness for `c8_truncation_bound` at the concrete over-long message. -/
theorem c8_truncation_witness :
    truncateMessage longMsg
      = String.mk (longMsg.data.take 4000) ++ "\n... (truncated)"
    ∧ truncateLogs longMsg
      = String.mk (longMsg.data.take 4000) ++ "\n\n... (logs truncated)" := by
  have hlen : longMsg.length > 4000 := by
    show (List.replicate 4096 'x').length > 4000
    rw [List.length_replicate]
    omega
  exact ⟨(c8_truncation_bound longMsg longMsg).2.1 hlen,
         (c8_truncation_bound longMsg longMsg).2.2.2 hlen⟩
